import Mathlib

/-!
Shallow embedding of `src/src/index.ts` (class `SolanaClient`) from the
repository `rickrich-hack-poc`, together with proofs about the claims of the
natural-language specification.

The embedding translates the TypeScript source directly:
* network interactions (`this.connection.*`, the SPL helpers) become explicit
  function parameters ("gateway oracles"), so a theorem quantifies over every
  possible gateway behaviour;
* a TypeScript function that may `throw` becomes a function into
  `Except GatewayError _` (or `Option _`);
* JavaScript numbers are modelled as exact rationals (`ℚ`), integer smallest
  units as `ℤ`/`ℕ`;
* to state the spec's "capability is invoked k times" properties, the
  embeddings additionally count, in their result, how often each gateway
  capability was invoked.  This instrumentation only counts the calls the
  source makes; it changes no control flow.
-/

namespace RickRich

/-- Errors the ledger gateway can throw (spec section 7 taxonomy for the parts
the claims need). -/
inductive GatewayError
  | accountNotFound
  | networkUnavailable
  | submissionRejected
  deriving Repr, DecidableEq

/-- `TransactionData` from `src/src/index.ts` lines 30‑34: the serialized
transaction bytes and the derived base‑58 signature string.  (The redundant
`rawTransaction` field is the same logical transaction and carries no extra
observable state for the claims, so it is not duplicated here.) -/
structure TransactionData where
  transaction : List Nat
  signature : String
  deriving Repr, DecidableEq

/-! ### checkSignatureAndSubmit (src/src/index.ts lines 152‑172)

The source reads:
```
async checkSignatureAndSubmit(txData: TransactionData): Promise<string | null> {
    try {
        // Apply custom logic to the signature
        // Submit the transaction
        const signature = await this.connection.sendRawTransaction(txData.transaction);
        return signature;
    } catch (error) { ... throw error; }
}
```
Note: the function takes NO `logicFunction` parameter (its doc comment still
documents one) and the body under the comment "Apply custom logic to the
signature" is empty; it always calls `sendRawTransaction`. -/

/-- Result of `checkSignatureAndSubmit` plus the number of times the broadcast
capability (`sendRawTransaction`) was invoked during the call. -/
structure SubmitOutcome where
  result : Except GatewayError (Option String)
  broadcasts : Nat
  deriving Repr

/-- Embedding of `SolanaClient.checkSignatureAndSubmit`.  `sendRaw` is the
gateway's `sendRawTransaction` capability (it may throw).  The error from the
broadcast is rethrown (`catch ... throw error`). -/
def checkSignatureAndSubmit (sendRaw : List Nat → Except GatewayError String)
    (txData : TransactionData) : SubmitOutcome :=
  match sendRaw txData.transaction with
  | .ok s => ⟨.ok (some s), 1⟩
  | .error e => ⟨.error e, 1⟩

/-! ### createUntilLogicMatches (src/src/index.ts lines 322‑381)

```
let attempts = 0; let txData: TransactionData; let shouldSubmit = false;
while (attempts < maxAttempts) {
    attempts++;
    try {
        txData = await this.createAndSign[Token]Transaction(...);
        shouldSubmit = logicFunction(txData.signature);
        if (shouldSubmit) {
            const signature = await this.connection.sendRawTransaction(txData.transaction);
            return { txData, signature };
        }
        ... delays ...
    } catch (error) { ... 1s delay ... }
}
return { txData: txData!, signature: null };
```
The build step and the broadcast step both sit inside the same `try`, so an
error from either is caught and the loop continues with the next attempt.
The gateway behaviour for one invocation is modelled by two oracles indexed by
the attempt number (the value of `attempts` inside that iteration):
`build k` is the outcome of the attempt‑`k` build, `bcast k` the outcome of a
`sendRawTransaction` issued during attempt `k`.  Delays are pure waiting and
have no effect on the modelled state. -/

/-- Gateway behaviour for one grind invocation. -/
structure GrindOracle where
  build : Nat → Except GatewayError TransactionData
  bcast : Nat → Except GatewayError String

/-- Result of a grind invocation, instrumented with invocation counts:
`builds` counts build-step invocations, `evals` counts predicate evaluations
(`logicFunction(txData.signature)`), `broadcasts` counts `sendRawTransaction`
invocations.  `txData` is the value of the `txData` variable at return
(`none` models `undefined`, i.e. never assigned). -/
structure GrindResult where
  txData : Option TransactionData
  signature : Option String
  builds : Nat
  evals : Nat
  broadcasts : Nat
  deriving Repr, DecidableEq

/-- The loop body of `createUntilLogicMatches`.  `fuel = maxAttempts - attempts`
counts the remaining iterations of `while (attempts < maxAttempts)`; `n` is the
current value of `attempts`; `last` is the current value of the `txData`
variable; `b`, `e`, `c` are the instrumentation counters. -/
def createUntilLogicMatchesAux (o : GrindOracle) (logic : String → Bool) :
    Nat → Nat → Option TransactionData → Nat → Nat → Nat → GrindResult
  | 0, _, last, b, e, c => ⟨last, none, b, e, c⟩
  | fuel + 1, n, last, b, e, c =>
    match o.build (n + 1) with
    | .error _ =>
        -- catch: log, wait 1s, continue the loop (the failed build consumed
        -- this iteration, since attempts++ ran before the try block)
        createUntilLogicMatchesAux o logic fuel (n + 1) last (b + 1) e c
    | .ok t =>
        if logic t.signature then
          match o.bcast (n + 1) with
          | .ok s => ⟨some t, some s, b + 1, e + 1, c + 1⟩
          | .error _ =>
              -- sendRawTransaction threw inside the try: caught, loop continues
              createUntilLogicMatchesAux o logic fuel (n + 1) (some t) (b + 1) (e + 1) (c + 1)
        else
          createUntilLogicMatchesAux o logic fuel (n + 1) (some t) (b + 1) (e + 1) c

/-- Embedding of `SolanaClient.createUntilLogicMatches` (the transaction kind
selection `isToken` only chooses which builder the `build` oracle stands for). -/
def createUntilLogicMatches (o : GrindOracle) (logic : String → Bool)
    (maxAttempts : Nat) : GrindResult :=
  createUntilLogicMatchesAux o logic maxAttempts 0 none 0 0 0

/-! ### Network selection and USDC constants (src/src/index.ts lines 20, 37‑44) -/

/-- `NetworkType` from line 20. -/
inductive NetworkType
  | mainnetBeta
  | testnet
  | devnet
  deriving Repr, DecidableEq

/-- `USDC_MINT` table from lines 37‑41. -/
def USDC_MINT : NetworkType → String
  | .mainnetBeta => "EPjFWdd5AufqSSqeM2qN1xzybapC8G4wEGGkZwyTDt1v"
  | .testnet => "4zMMC9srt5Ri5X14GAgXhaHii3GnPAEERYPJgZJDncDU"
  | .devnet => "4zMMC9srt5Ri5X14GAgXhaHii3GnPAEERYPJgZJDncDU"

/-- `USDC_DECIMALS = 6` (line 44). -/
def USDC_DECIMALS : Nat := 6

/-- `SolanaClient.getUsdcMint` (lines 194‑196). -/
def getUsdcMint (network : NetworkType) : String := USDC_MINT network

/-! ### createAndSignTokenTransaction (src/src/index.ts lines 205‑281)

The instruction-assembly part of the builder (lines 211‑259): derive the
mint, convert the amount, derive both associated token accounts, query the
gateway for the recipient account and conditionally prepend the
create-account instruction, then append the transfer instruction.  The SPL
helpers `getAssociatedTokenAddress` (a pure derivation) and the gateway's
`getAccountInfo` are oracles.  The remainder of the function (blockhash,
fee payer, sign, serialize) operates on this instruction list. -/

/-- The two instruction kinds the token builder emits: the SPL
`createAssociatedTokenAccountInstruction(payer, ata, owner, mint, ...)` (lines
238‑245) and `createTransferInstruction(source, destination, owner, amount,
...)` (lines 251‑258). -/
inductive TokenInstruction
  | createAssociatedTokenAccount (payer ata owner mint : String)
  | transfer (source destination owner : String) (amount : ℤ)
  deriving Repr, DecidableEq

/-- The oracles the token builder consults: the pure associated-token-address
derivation `getAssociatedTokenAddress(mint, owner)` and the gateway call
`connection.getAccountInfo(address)` (`none` = account absent). -/
structure TokenGateway where
  getAssociatedTokenAddress : String → String → String
  getAccountInfo : String → Option Unit

/-- The instruction list and fee payer assembled by
`SolanaClient.createAndSignTokenTransaction` (lines 211‑264).  `amount` is the
decimal USDC amount; `Math.floor(amount * Math.pow(10, USDC_DECIMALS))`
(line 216) is embedded as the exact floor of the rational product. -/
def createAndSignTokenTransaction (gw : TokenGateway)
    (network : NetworkType) (walletPublicKey recipientAddress : String)
    (amount : ℚ) : List TokenInstruction × String :=
  let usdcMintAddress := getUsdcMint network
  let tokenAmount : ℤ := ⌊amount * (10 : ℚ) ^ USDC_DECIMALS⌋
  let senderTokenAccount := gw.getAssociatedTokenAddress usdcMintAddress walletPublicKey
  let recipientTokenAccount := gw.getAssociatedTokenAddress usdcMintAddress recipientAddress
  let recipientAccountInfo := gw.getAccountInfo recipientTokenAccount
  let createPart : List TokenInstruction :=
    match recipientAccountInfo with
    | none =>
        [TokenInstruction.createAssociatedTokenAccount walletPublicKey
          recipientTokenAccount recipientAddress usdcMintAddress]
    | some _ => []
  (createPart ++
    [TokenInstruction.transfer senderTokenAccount recipientTokenAccount
      walletPublicKey tokenAmount],
   walletPublicKey)

/-- Extract the amount carried by the (unique) transfer instruction of an
instruction list, for stating properties of the builder. -/
def transferAmount : List TokenInstruction → Option ℤ
  | [] => none
  | TokenInstruction.transfer _ _ _ a :: _ => some a
  | _ :: rest => transferAmount rest

/-! ### getTokenBalance (src/src/index.ts lines 288‑310)

```
const tokenAccount = await getAssociatedTokenAddress(mintPublicKey, publicKey);
try {
    const tokenAccountInfo = await this.connection.getTokenAccountBalance(tokenAccount);
    return Number(tokenAccountInfo.value.amount) / Math.pow(10, USDC_DECIMALS);
} catch (error) {
    // If the account doesn't exist or another error occurs, return 0
    return 0;
}
```
The inner catch matches EVERY error from `getTokenAccountBalance`.
`fetchBalance` is the gateway's `getTokenAccountBalance` capability, returning
the integer smallest-unit amount or throwing. -/

/-- Embedding of `SolanaClient.getTokenBalance`. -/
def getTokenBalance (gw : TokenGateway) (fetchBalance : String → Except GatewayError ℤ)
    (network : NetworkType) (address : String) : Except GatewayError ℚ :=
  let mint := getUsdcMint network
  let tokenAccount := gw.getAssociatedTokenAddress mint address
  match fetchBalance tokenAccount with
  | .ok amount => .ok ((amount : ℚ) / (10 : ℚ) ^ USDC_DECIMALS)
  | .error _ => .ok 0

/-! ### Identity provider (src/src/index.ts lines 76‑98) and the bs58 codec

`createWallet` generates a keypair and base‑58 encodes its 64 secret bytes;
`loadWalletFromSecretKey` base‑58 decodes and rebuilds the keypair.  The
external pieces are embedded as follows:
* `bs58` (Bitcoin‑alphabet base‑58): the algorithm itself is embedded below —
  leading zero bytes become leading alphabet‑zero characters, the remaining
  big‑endian byte string is converted through its natural-number value into
  big‑endian base‑58 digits; decoding inverts this and fails on characters
  outside the alphabet (the library throws there);
* `Keypair.generate` / `Keypair.fromSecretKey` (web3.js, tweetnacl): a keypair
  is its 64 secret-key bytes plus the public address the library derives
  deterministically from those bytes; the derivation is an arbitrary function
  parameter `derivePub`, the same one for generation and restoration. -/

/-- The base‑58 alphabet used by `bs58` (Bitcoin alphabet). -/
def BASE58_ALPHABET : List Char :=
  [ '1', '2', '3', '4', '5', '6', '7', '8', '9',
    'A', 'B', 'C', 'D', 'E', 'F', 'G', 'H', 'J', 'K', 'L', 'M', 'N',
    'P', 'Q', 'R', 'S', 'T', 'U', 'V', 'W', 'X', 'Y', 'Z',
    'a', 'b', 'c', 'd', 'e', 'f', 'g', 'h', 'i', 'j', 'k', 'm', 'n',
    'o', 'p', 'q', 'r', 's', 't', 'u', 'v', 'w', 'x', 'y', 'z']

/-- The character of one base‑58 digit. -/
def b58digitChar (d : Nat) : Char := BASE58_ALPHABET.getD d '?'

/-- The digit value of one character; `none` for a character outside the
alphabet. -/
def b58charVal (c : Char) : Option Nat := BASE58_ALPHABET.indexOf? c

/-- Decode every character of the base‑58 body to its digit value; fails on
the first character outside the alphabet. -/
def decodeChars : List Char → Option (List Nat)
  | [] => some []
  | c :: cs =>
    match b58charVal c, decodeChars cs with
    | some d, some ds => some (d :: ds)
    | _, _ => none

/-- `bs58.encode`: one alphabet‑zero character per leading zero byte, then the
big‑endian base‑58 digits of the value of the remaining bytes. -/
def b58encode (bs : List Nat) : List Char :=
  List.replicate (bs.takeWhile (· == 0)).length (b58digitChar 0) ++
    ((Nat.digits 58 (Nat.ofDigits 256 (bs.dropWhile (· == 0)).reverse)).reverse.map
      b58digitChar)

/-- `bs58.decode`: inverse of `b58encode`; `none` models the throw on input
that is not valid base‑58. -/
def b58decode (s : List Char) : Option (List Nat) :=
  match decodeChars (s.dropWhile (· == b58digitChar 0)) with
  | none => none
  | some ds =>
      some (List.replicate (s.takeWhile (· == b58digitChar 0)).length 0 ++
        (Nat.digits 256 (Nat.ofDigits 58 ds.reverse)).reverse)

/-- A web3.js keypair: the 64 secret-key bytes and the public address the
library derives from them. -/
structure Keypair where
  secretKey : List Nat
  publicKey : String
  deriving Repr, DecidableEq

/-- `Keypair.generate()`: fresh randomness (`entropy`) becomes the secret-key
bytes; the public address is derived from them by `derivePub`. -/
def Keypair.generate (derivePub : List Nat → String) (entropy : List Nat) : Keypair :=
  ⟨entropy, derivePub entropy⟩

/-- `Keypair.fromSecretKey(decodedKey)`: rebuild the keypair from raw secret
bytes, deriving the public address with the same derivation. -/
def Keypair.fromSecretKey (derivePub : List Nat → String) (decodedKey : List Nat) : Keypair :=
  ⟨decodedKey, derivePub decodedKey⟩

/-- `WalletInfo` from src/src/index.ts lines 23‑27. -/
structure WalletInfo where
  publicKey : String
  secretKey : String
  keypair : Keypair
  deriving Repr, DecidableEq

/-- `SolanaClient.createWallet` (lines 76‑83). -/
def createWallet (derivePub : List Nat → String) (entropy : List Nat) : WalletInfo :=
  let wallet := Keypair.generate derivePub entropy
  ⟨wallet.publicKey, ⟨b58encode wallet.secretKey⟩, wallet⟩

/-- `SolanaClient.loadWalletFromSecretKey` (lines 90‑98); `none` models the
throw when `bs58.decode` fails. -/
def loadWalletFromSecretKey (derivePub : List Nat → String) (secretKey : String) :
    Option WalletInfo :=
  match b58decode secretKey.data with
  | none => none
  | some decodedKey =>
      let wallet := Keypair.fromSecretKey derivePub decodedKey
      some ⟨wallet.publicKey, secretKey, wallet⟩

/-- Whether the build step of attempt `k` succeeds under oracle `o`. -/
def buildSucceeds (o : GrindOracle) (k : Nat) : Bool :=
  match o.build k with
  | .ok _ => true
  | .error _ => false

/-- A sample gateway for concrete evaluations: the associated-token-address
derivation returns the owner, no account exists. -/
def sampleGateway : TokenGateway := ⟨fun _ owner => owner, fun _ => none⟩

/-- A sample gateway whose accounts all exist. -/
def sampleGatewayExisting : TokenGateway := ⟨fun _ owner => owner, fun _ => some ()⟩

/-- How many of the attempts numbered `n + 1, …, n + fuel` have a successful
build step under oracle `o`. -/
def successfulBuilds (o : GrindOracle) : Nat → Nat → Nat
  | _, 0 => 0
  | n, fuel + 1 =>
    (if buildSucceeds o (n + 1) then 1 else 0) + successfulBuilds o (n + 1) fuel

/-! ## Helper lemmas -/

/-- Every base‑58 digit below 58 decodes back to itself. -/
theorem b58charVal_b58digitChar : ∀ d, d < 58 → b58charVal (b58digitChar d) = some d := by
  decide

/-- A nonzero base‑58 digit is written with a character different from the
alphabet‑zero character. -/
theorem b58digitChar_ne_zero_char :
    ∀ d, d < 58 → d ≠ 0 → b58digitChar d ≠ b58digitChar 0 := by
  decide

/-- `decodeChars` inverts `b58digitChar` on lists of digits below 58. -/
theorem decodeChars_map_digitChar (l : List Nat) (h : ∀ d ∈ l, d < 58) :
    decodeChars (l.map b58digitChar) = some l := by
  induction l with
  | nil => rfl
  | cons d ds ih =>
      have hd : d < 58 := h d (List.mem_cons_self d ds)
      have hds : ∀ x ∈ ds, x < 58 := fun x hx => h x (List.mem_cons_of_mem d hx)
      simp only [List.map_cons, decodeChars, b58charVal_b58digitChar d hd, ih hds]

/-- The base‑58 codec round trip: decoding the encoding of any byte list (each
byte below 256) returns exactly the original bytes. -/
theorem b58decode_b58encode (bs : List Nat) (h : ∀ b ∈ bs, b < 256) :
    b58decode (b58encode bs) = some bs := by
  have hz : bs.takeWhile (· == 0) = List.replicate (bs.takeWhile (· == 0)).length 0 := by
    apply List.eq_replicate_of_mem
    intro b hb
    simpa using List.mem_takeWhile_imp hb
  have hrep : ∀ a ∈ List.replicate (bs.takeWhile (· == 0)).length (b58digitChar 0),
      (a == b58digitChar 0) = true := by
    intro a ha
    simp [List.eq_of_mem_replicate ha]
  have hdig : Nat.digits 256 (Nat.ofDigits 256 (bs.dropWhile (· == 0)).reverse)
      = (bs.dropWhile (· == 0)).reverse := by
    apply Nat.digits_ofDigits 256 (by norm_num)
    · intro l hl
      exact h l ((List.dropWhile_sublist _).subset (List.mem_reverse.mp hl))
    · intro hne
      have hrnil : bs.dropWhile (· == 0) ≠ [] := by
        intro hc
        rw [hc] at hne
        simp at hne
      have hhead := List.head_dropWhile_not (· == 0) bs hrnil
      have hlast : (bs.dropWhile (· == 0)).reverse.getLast hne
          = (bs.dropWhile (· == 0)).head hrnil := by
        have h1 := List.getLast?_eq_getLast (bs.dropWhile (· == 0)).reverse hne
        have h2 := List.getLast?_reverse (bs.dropWhile (· == 0))
        have h3 := List.head?_eq_head hrnil
        rw [h1, h3] at h2
        exact Option.some_injective _ h2
      rw [hlast]
      intro h0
      rw [h0] at hhead
      simp at hhead
  rcases hcase : bs.dropWhile (· == 0) with _ | ⟨r, rs⟩
  · -- all bytes are zero: the body is empty
    rw [hcase] at hdig
    unfold b58encode
    rw [hcase]
    simp only [List.reverse_nil, Nat.ofDigits_nil, Nat.digits_zero, List.map_nil,
      List.append_nil]
    unfold b58decode
    rw [List.takeWhile_replicate, List.dropWhile_replicate]
    simp only [beq_self_eq_true, if_true, decodeChars]
    rw [show (Nat.ofDigits 58 ([] : List ℕ).reverse) = 0 from rfl]
    simp only [Nat.digits_zero, List.reverse_nil, List.append_nil, List.length_replicate]
    rw [← hz]
    have := List.takeWhile_append_dropWhile (· == 0) bs
    rw [hcase, List.append_nil] at this
    rw [this]
  · -- the body is nonempty and starts with a character that is not
    -- the alphabet-zero character
    have hrnil : bs.dropWhile (· == 0) ≠ [] := by rw [hcase]; simp
    have hN : Nat.ofDigits 256 (bs.dropWhile (· == 0)).reverse ≠ 0 := by
      intro h0
      rw [h0, Nat.digits_zero] at hdig
      rw [hcase] at hdig
      simp at hdig
    have hds_ne : Nat.digits 58 (Nat.ofDigits 256 (bs.dropWhile (· == 0)).reverse) ≠ [] :=
      Nat.digits_ne_nil_iff_ne_zero.mpr hN
    obtain ⟨d₀, ds', hrev⟩ :=
      List.exists_cons_of_ne_nil (by simpa using hds_ne :
        (Nat.digits 58 (Nat.ofDigits 256 (bs.dropWhile (· == 0)).reverse)).reverse ≠ [])
    have hd₀_mem : d₀ ∈ Nat.digits 58 (Nat.ofDigits 256 (bs.dropWhile (· == 0)).reverse) := by
      rw [← List.mem_reverse, hrev]
      exact List.mem_cons_self _ _
    have hd₀58 : d₀ < 58 := Nat.digits_lt_base (by norm_num) hd₀_mem
    have hd₀0 : d₀ ≠ 0 := by
      have h1 := List.head?_reverse
        (Nat.digits 58 (Nat.ofDigits 256 (bs.dropWhile (· == 0)).reverse))
      rw [hrev] at h1
      have h2 := List.getLast?_eq_getLast
        (Nat.digits 58 (Nat.ofDigits 256 (bs.dropWhile (· == 0)).reverse)) hds_ne
      rw [h2] at h1
      have h3 := Option.some_injective _ h1
      rw [h3]
      exact Nat.getLast_digit_ne_zero 58 hN
    have hchar : (b58digitChar d₀ == b58digitChar 0) = false := by
      have := b58digitChar_ne_zero_char d₀ hd₀58 hd₀0
      simpa using this
    unfold b58encode
    rw [hrev, List.map_cons]
    unfold b58decode
    rw [List.takeWhile_append_of_pos hrep, List.dropWhile_append_of_pos hrep]
    rw [List.takeWhile_cons_of_neg (by simp [hchar]), List.dropWhile_cons_of_neg (by simp [hchar])]
    rw [← List.map_cons, ← hrev]
    rw [decodeChars_map_digitChar _ (fun x hx =>
      Nat.digits_lt_base (by norm_num) (List.mem_reverse.mp hx))]
    dsimp only
    rw [List.reverse_reverse, Nat.ofDigits_digits, hdig, List.reverse_reverse]
    simp only [List.append_nil, List.length_replicate]
    rw [← hz, List.takeWhile_append_dropWhile]

/-- Behaviour of the grind loop when the predicate rejects every signature:
every iteration consumes one unit of budget (also a failed build), the
predicate is evaluated exactly once per successful build, the broadcast
capability is never invoked and no signature is returned. -/
theorem createUntilLogicMatchesAux_false (o : GrindOracle) (logic : String → Bool)
    (h : ∀ s, logic s = false) :
    ∀ (fuel n : Nat) (last : Option TransactionData) (b e c : Nat),
      (createUntilLogicMatchesAux o logic fuel n last b e c).builds = b + fuel ∧
      (createUntilLogicMatchesAux o logic fuel n last b e c).evals
        = e + successfulBuilds o n fuel ∧
      (createUntilLogicMatchesAux o logic fuel n last b e c).broadcasts = c ∧
      (createUntilLogicMatchesAux o logic fuel n last b e c).signature = none := by
  intro fuel
  induction fuel with
  | zero =>
      intro n last b e c
      simp [createUntilLogicMatchesAux, successfulBuilds]
  | succ fuel ih =>
      intro n last b e c
      cases hb : o.build (n + 1) with
      | error err =>
          have hbs : buildSucceeds o (n + 1) = false := by simp [buildSucceeds, hb]
          obtain ⟨h1, h2, h3, h4⟩ := ih (n + 1) last (b + 1) e c
          refine ⟨?_, ?_, ?_, ?_⟩ <;>
            · simp only [createUntilLogicMatchesAux, hb]
              simp [h1, h2, h3, h4, successfulBuilds, hbs]
              try omega
      | ok t =>
          have hbs : buildSucceeds o (n + 1) = true := by simp [buildSucceeds, hb]
          obtain ⟨h1, h2, h3, h4⟩ := ih (n + 1) (some t) (b + 1) (e + 1) c
          refine ⟨?_, ?_, ?_, ?_⟩ <;>
            simp only [createUntilLogicMatchesAux, hb, h t.signature, if_neg Bool.false_ne_true] <;>
            simp [h1, h2, h3, h4, successfulBuilds, hbs] <;> omega

/-- Behaviour of the grind loop when the broadcast capability never fails:
at most one broadcast happens, and when one does, the loop returns the
transaction whose signature the predicate accepted together with the
broadcast's return value. -/
theorem createUntilLogicMatchesAux_bcast_ok (o : GrindOracle) (logic : String → Bool)
    (hb : ∀ k, ∃ s, o.bcast k = .ok s) :
    ∀ (fuel n : Nat) (last : Option TransactionData) (b e c : Nat),
      (createUntilLogicMatchesAux o logic fuel n last b e c).broadcasts = c ∨
      ((createUntilLogicMatchesAux o logic fuel n last b e c).broadcasts = c + 1 ∧
       ∃ t s, (createUntilLogicMatchesAux o logic fuel n last b e c).txData = some t ∧
         logic t.signature = true ∧
         (createUntilLogicMatchesAux o logic fuel n last b e c).signature = some s) := by
  intro fuel
  induction fuel with
  | zero =>
      intro n last b e c
      left
      simp [createUntilLogicMatchesAux]
  | succ fuel ih =>
      intro n last b e c
      cases hbuild : o.build (n + 1) with
      | error err =>
          simpa only [createUntilLogicMatchesAux, hbuild] using ih (n + 1) last (b + 1) e c
      | ok t =>
          cases hlogic : logic t.signature with
          | false =>
              simpa only [createUntilLogicMatchesAux, hbuild, hlogic,
                if_neg Bool.false_ne_true] using ih (n + 1) (some t) (b + 1) (e + 1) c
          | true =>
              obtain ⟨s, hs⟩ := hb (n + 1)
              right
              refine ⟨?_, t, s, ?_, hlogic, ?_⟩ <;>
                simp [createUntilLogicMatchesAux, hbuild, hlogic, hs]

/-- Behaviour of the grind loop when every build fails: the `txData` variable
is never assigned (it stays `none`, i.e. `undefined`) and no signature is
returned. -/
theorem createUntilLogicMatchesAux_all_build_fail (o : GrindOracle) (logic : String → Bool)
    (h : ∀ k, ∃ e, o.build k = .error e) :
    ∀ (fuel n b e c : Nat),
      (createUntilLogicMatchesAux o logic fuel n none b e c).txData = none ∧
      (createUntilLogicMatchesAux o logic fuel n none b e c).signature = none := by
  intro fuel
  induction fuel with
  | zero =>
      intro n b e c
      simp [createUntilLogicMatchesAux]
  | succ fuel ih =>
      intro n b e c
      obtain ⟨err, herr⟩ := h (n + 1)
      simpa only [createUntilLogicMatchesAux, herr] using ih (n + 1) (b + 1) e c

/-! ## Claim theorems -/

/-- C1: the claim says `checkSignatureAndSubmit` applies a caller-supplied
predicate to the transaction's signature and broadcasts if and only if the
predicate accepts, returning `null` on rejection.  The source function takes
no predicate at all: it invokes the broadcast capability exactly once for
every transaction and every gateway, and on a successful broadcast returns
its signature — it can never withhold the broadcast or return `null` because
a predicate (such as the always-rejecting one shown here on the signature
"sig") rejected.  This contradicts the function's own doc comment, which
still documents a `logicFunction` parameter and a `null` return on
rejection. -/
theorem C1_checkSignatureAndSubmit_always_broadcasts :
    (∀ (txData : TransactionData) (sendRaw : List Nat → Except GatewayError String),
       (checkSignatureAndSubmit sendRaw txData).broadcasts = 1) ∧
    (fun _ : String => false) "sig" = false ∧
    (checkSignatureAndSubmit (fun _ => .ok "bcastSig") ⟨[0], "sig"⟩).result
      = .ok (some "bcastSig") := by
  refine ⟨?_, rfl, rfl⟩
  intro t s
  unfold checkSignatureAndSubmit
  cases s t.transaction <;> rfl

/-- C2 counterexample: with an always-accepting predicate, an attempt budget
of 2 and a gateway whose first broadcast throws `SubmissionRejected`, a single
invocation of the grind loop invokes the broadcast capability twice — the
broadcast error is caught inside the loop's `try`, so the loop continues and
broadcasts again, refuting the at-most-one-broadcast claim. -/
theorem C2_counterexample_two_broadcasts :
    (createUntilLogicMatches
      ⟨fun _ => .ok ⟨[7], "s"⟩,
       fun k => if k = 1 then .error .submissionRejected else .ok "ok"⟩
      (fun _ => true) 2).broadcasts = 2 := by
  rfl

/-- C2 (amended): when no broadcast call fails, a single grind invocation
invokes the broadcast capability at most once, and if it is invoked then the
loop returns the transaction whose signature the predicate accepted in that
same iteration, paired with the broadcast's return value.  (A failed
broadcast is caught, not surfaced, and the loop keeps building, which is why
the failure-free hypothesis is needed.) -/
theorem C2_at_most_one_broadcast (o : GrindOracle) (logic : String → Bool)
    (maxAttempts : Nat) (hb : ∀ k, ∃ s, o.bcast k = .ok s) :
    (createUntilLogicMatches o logic maxAttempts).broadcasts ≤ 1 ∧
    ((createUntilLogicMatches o logic maxAttempts).broadcasts = 1 →
      ∃ t s, (createUntilLogicMatches o logic maxAttempts).txData = some t ∧
        logic t.signature = true ∧
        (createUntilLogicMatches o logic maxAttempts).signature = some s) := by
  unfold createUntilLogicMatches
  rcases createUntilLogicMatchesAux_bcast_ok o logic hb maxAttempts 0 none 0 0 0 with
    h | ⟨h1, h2⟩
  · rw [h]
    exact ⟨by omega, fun hc => absurd hc (by omega)⟩
  · rw [h1]
    exact ⟨by omega, fun _ => h2⟩

/-- Witness for C2 (amended) at a concrete gateway whose broadcasts always
succeed, an always-rejecting predicate and budget 3. -/
theorem C2_at_most_one_broadcast_witness :
    (∀ k : Nat, ∃ s,
      (GrindOracle.mk (fun _ => .ok ⟨[1], "t"⟩) (fun _ => .ok "w")).bcast k = .ok s) ∧
    ((createUntilLogicMatches ⟨fun _ => .ok ⟨[1], "t"⟩, fun _ => .ok "w"⟩
        (fun _ => false) 3).broadcasts ≤ 1 ∧
     ((createUntilLogicMatches ⟨fun _ => .ok ⟨[1], "t"⟩, fun _ => .ok "w"⟩
        (fun _ => false) 3).broadcasts = 1 →
      ∃ t s, (createUntilLogicMatches ⟨fun _ => .ok ⟨[1], "t"⟩, fun _ => .ok "w"⟩
          (fun _ => false) 3).txData = some t ∧
        (fun _ : String => false) t.signature = true ∧
        (createUntilLogicMatches ⟨fun _ => .ok ⟨[1], "t"⟩, fun _ => .ok "w"⟩
          (fun _ => false) 3).signature = some s)) :=
  ⟨fun _ => ⟨"w", rfl⟩,
   C2_at_most_one_broadcast ⟨fun _ => .ok ⟨[1], "t"⟩, fun _ => .ok "w"⟩
     (fun _ => false) 3 (fun _ => ⟨"w", rfl⟩)⟩

/-- C3: with a predicate that rejects every signature, the grind loop performs
exactly `maxAttempts` build attempts (one per iteration, also when a build
fails), never invokes the broadcast capability, and returns a `null`
signature. -/
theorem C3_reject_all_exhausts_budget (o : GrindOracle) (logic : String → Bool)
    (maxAttempts : Nat) (h : ∀ s, logic s = false) :
    (createUntilLogicMatches o logic maxAttempts).builds = maxAttempts ∧
    (createUntilLogicMatches o logic maxAttempts).broadcasts = 0 ∧
    (createUntilLogicMatches o logic maxAttempts).signature = none := by
  unfold createUntilLogicMatches
  obtain ⟨h1, _, h3, h4⟩ :=
    createUntilLogicMatchesAux_false o logic h maxAttempts 0 none 0 0 0
  exact ⟨by simpa using h1, h3, h4⟩

/-- Witness for C3: an always-rejecting predicate, budget 3, builds always
succeeding. -/
theorem C3_reject_all_exhausts_budget_witness :
    (∀ s : String, (fun _ : String => false) s = false) ∧
    ((createUntilLogicMatches ⟨fun _ => .ok ⟨[2], "u"⟩, fun _ => .ok "v"⟩
        (fun _ => false) 3).builds = 3 ∧
     (createUntilLogicMatches ⟨fun _ => .ok ⟨[2], "u"⟩, fun _ => .ok "v"⟩
        (fun _ => false) 3).broadcasts = 0 ∧
     (createUntilLogicMatches ⟨fun _ => .ok ⟨[2], "u"⟩, fun _ => .ok "v"⟩
        (fun _ => false) 3).signature = none) :=
  ⟨fun _ => rfl,
   C3_reject_all_exhausts_budget ⟨fun _ => .ok ⟨[2], "u"⟩, fun _ => .ok "v"⟩
     (fun _ => false) 3 (fun _ => rfl)⟩

/-- C4 counterexample: the claim says a transiently failing build is not
counted toward the attempt budget, so a budget of 2 with one transient
failure should still allow 2 predicate-evaluated build attempts.  In the
source `attempts++` runs before the `try`, so the failing attempt consumes
budget: with budget 2, a `NetworkUnavailable` failure on attempt 1 and an
always-rejecting predicate, both budget units are consumed but the predicate
is evaluated only once. -/
theorem C4_counterexample_transient_failure_consumes_budget :
    (createUntilLogicMatches
      ⟨fun k => if k = 1 then .error .networkUnavailable else .ok ⟨[3], "w"⟩,
       fun _ => .ok "x"⟩
      (fun _ => false) 2).builds = 2 ∧
    (createUntilLogicMatches
      ⟨fun k => if k = 1 then .error .networkUnavailable else .ok ⟨[3], "w"⟩,
       fun _ => .ok "x"⟩
      (fun _ => false) 2).evals = 1 := by
  exact ⟨rfl, rfl⟩

/-- C4 (amended): an iteration whose build step fails transiently IS counted
toward the attempt budget (the loop retries after the recovery delay with the
attempt count already incremented): with an always-rejecting predicate the
loop runs exactly `maxAttempts` iterations, and the predicate is evaluated
once per iteration whose build succeeded — so `n` transient build failures
within a budget of `m` leave only `m - n` predicate-evaluated build
attempts. -/
theorem C4_transient_failures_counted (o : GrindOracle) (logic : String → Bool)
    (maxAttempts : Nat) (h : ∀ s, logic s = false) :
    (createUntilLogicMatches o logic maxAttempts).builds = maxAttempts ∧
    (createUntilLogicMatches o logic maxAttempts).evals
      = successfulBuilds o 0 maxAttempts := by
  unfold createUntilLogicMatches
  obtain ⟨h1, h2, _, _⟩ :=
    createUntilLogicMatchesAux_false o logic h maxAttempts 0 none 0 0 0
  exact ⟨by simpa using h1, by simpa using h2⟩

/-- Witness for C4 (amended): budget 2, build 1 fails transiently, build 2
succeeds, predicate always rejects. -/
theorem C4_transient_failures_counted_witness :
    (∀ s : String, (fun _ : String => false) s = false) ∧
    ((createUntilLogicMatches
        ⟨fun k => if k = 2 then .ok ⟨[4], "y"⟩ else .error .networkUnavailable,
         fun _ => .ok "z"⟩ (fun _ => false) 2).builds = 2 ∧
     (createUntilLogicMatches
        ⟨fun k => if k = 2 then .ok ⟨[4], "y"⟩ else .error .networkUnavailable,
         fun _ => .ok "z"⟩ (fun _ => false) 2).evals
       = successfulBuilds
           ⟨fun k => if k = 2 then .ok ⟨[4], "y"⟩ else .error .networkUnavailable,
            fun _ => .ok "z"⟩ 0 2) :=
  ⟨fun _ => rfl,
   C4_transient_failures_counted
     ⟨fun k => if k = 2 then .ok ⟨[4], "y"⟩ else .error .networkUnavailable,
      fun _ => .ok "z"⟩ (fun _ => false) 2 (fun _ => rfl)⟩

/-- C5: when the first built transaction's signature is accepted by the
predicate (and that build and its broadcast succeed, the budget being at
least 1), the grind loop performs exactly one build, evaluates the predicate
once, invokes the broadcast capability exactly once, and returns that build's
transaction data paired with exactly the value the broadcast call returned. -/
theorem C5_first_attempt_accepted (o : GrindOracle) (logic : String → Bool)
    (maxAttempts : Nat) (hn : 1 ≤ maxAttempts) (t : TransactionData)
    (hbuild : o.build 1 = .ok t) (hlogic : logic t.signature = true)
    (s : String) (hbcast : o.bcast 1 = .ok s) :
    createUntilLogicMatches o logic maxAttempts
      = ⟨some t, some s, 1, 1, 1⟩ := by
  obtain ⟨m, rfl⟩ : ∃ m, maxAttempts = m + 1 := ⟨maxAttempts - 1, by omega⟩
  unfold createUntilLogicMatches
  simp [createUntilLogicMatchesAux, hbuild, hlogic, hbcast]

/-- Witness for C5: budget 1, the single build succeeds with signature "q",
the predicate accepts everything, broadcast returns "r". -/
theorem C5_first_attempt_accepted_witness :
    (1 ≤ 1 ∧
      (GrindOracle.mk (fun _ => .ok ⟨[5], "q"⟩) (fun _ => .ok "r")).build 1
        = .ok ⟨[5], "q"⟩ ∧
      (fun _ : String => true) (TransactionData.mk [5] "q").signature = true ∧
      (GrindOracle.mk (fun _ => .ok ⟨[5], "q"⟩) (fun _ => .ok "r")).bcast 1 = .ok "r") ∧
    createUntilLogicMatches ⟨fun _ => .ok ⟨[5], "q"⟩, fun _ => .ok "r"⟩
      (fun _ => true) 1 = ⟨some ⟨[5], "q"⟩, some "r", 1, 1, 1⟩ :=
  ⟨⟨le_refl 1, rfl, rfl, rfl⟩,
   C5_first_attempt_accepted ⟨fun _ => .ok ⟨[5], "q"⟩, fun _ => .ok "r"⟩
     (fun _ => true) 1 (le_refl 1) ⟨[5], "q"⟩ rfl rfl "r" rfl⟩

/-- C6: the token-transfer builder emits exactly two instructions — the
create-holding-account instruction with the sender as payer, followed by the
transfer — when the gateway reports the recipient's derived holding account
as absent, and exactly the transfer alone when it exists. -/
theorem C6_conditional_account_creation (gw : TokenGateway) (network : NetworkType)
    (walletPublicKey recipientAddress : String) (amount : ℚ) :
    (gw.getAccountInfo
        (gw.getAssociatedTokenAddress (getUsdcMint network) recipientAddress) = none →
      (createAndSignTokenTransaction gw network walletPublicKey recipientAddress amount).1
        = [TokenInstruction.createAssociatedTokenAccount walletPublicKey
            (gw.getAssociatedTokenAddress (getUsdcMint network) recipientAddress)
            recipientAddress (getUsdcMint network),
           TokenInstruction.transfer
            (gw.getAssociatedTokenAddress (getUsdcMint network) walletPublicKey)
            (gw.getAssociatedTokenAddress (getUsdcMint network) recipientAddress)
            walletPublicKey ⌊amount * (10 : ℚ) ^ USDC_DECIMALS⌋]) ∧
    (∀ u : Unit,
      gw.getAccountInfo
        (gw.getAssociatedTokenAddress (getUsdcMint network) recipientAddress) = some u →
      (createAndSignTokenTransaction gw network walletPublicKey recipientAddress amount).1
        = [TokenInstruction.transfer
            (gw.getAssociatedTokenAddress (getUsdcMint network) walletPublicKey)
            (gw.getAssociatedTokenAddress (getUsdcMint network) recipientAddress)
            walletPublicKey ⌊amount * (10 : ℚ) ^ USDC_DECIMALS⌋]) := by
  constructor
  · intro h
    unfold createAndSignTokenTransaction
    simp [h]
  · intro u h
    unfold createAndSignTokenTransaction
    simp [h]

/-- Witness for C6, in both directions: under `sampleGateway` (no account
exists) the builder emits create + transfer; under `sampleGatewayExisting`
(every account exists) it emits the transfer alone. -/
theorem C6_conditional_account_creation_witness :
    sampleGateway.getAccountInfo
      (sampleGateway.getAssociatedTokenAddress (getUsdcMint .devnet) "recipient")
        = none ∧
    (createAndSignTokenTransaction sampleGateway .devnet "sender" "recipient" 2).1
      = [TokenInstruction.createAssociatedTokenAccount "sender"
          (sampleGateway.getAssociatedTokenAddress (getUsdcMint .devnet) "recipient")
          "recipient" (getUsdcMint .devnet),
         TokenInstruction.transfer
          (sampleGateway.getAssociatedTokenAddress (getUsdcMint .devnet) "sender")
          (sampleGateway.getAssociatedTokenAddress (getUsdcMint .devnet) "recipient")
          "sender" ⌊(2 : ℚ) * (10 : ℚ) ^ USDC_DECIMALS⌋] ∧
    sampleGatewayExisting.getAccountInfo
      (sampleGatewayExisting.getAssociatedTokenAddress (getUsdcMint .devnet) "recipient")
        = some () ∧
    (createAndSignTokenTransaction sampleGatewayExisting .devnet "sender" "recipient" 2).1
      = [TokenInstruction.transfer
          (sampleGatewayExisting.getAssociatedTokenAddress (getUsdcMint .devnet) "sender")
          (sampleGatewayExisting.getAssociatedTokenAddress (getUsdcMint .devnet) "recipient")
          "sender" ⌊(2 : ℚ) * (10 : ℚ) ^ USDC_DECIMALS⌋] :=
  ⟨rfl,
   (C6_conditional_account_creation sampleGateway .devnet "sender" "recipient" 2).1 rfl,
   rfl,
   (C6_conditional_account_creation sampleGatewayExisting .devnet "sender" "recipient" 2).2
     () rfl⟩

/-- C7 counterexample: the claim says only `AccountNotFound` is normalized to
a zero balance and every other fetch failure (e.g. `NetworkUnavailable`) is
propagated.  The source's inner `catch` matches every error: a
`NetworkUnavailable` failure of the balance fetch also yields a successful
zero balance instead of propagating. -/
theorem C7_counterexample_network_error_swallowed :
    getTokenBalance sampleGateway (fun _ => .error .networkUnavailable) .devnet "addr"
      = .ok 0 := by
  rfl

/-- C7 (amended): `getTokenBalance` normalizes EVERY error of the balance
fetch — `AccountNotFound`, `NetworkUnavailable`, or any other gateway error —
to a successful zero balance. -/
theorem C7_every_fetch_error_normalized_to_zero (gw : TokenGateway)
    (fetchBalance : String → Except GatewayError ℤ) (network : NetworkType)
    (address : String) (e : GatewayError)
    (h : fetchBalance (gw.getAssociatedTokenAddress (getUsdcMint network) address)
      = .error e) :
    getTokenBalance gw fetchBalance network address = .ok 0 := by
  unfold getTokenBalance
  simp [h]

/-- Witness for C7 (amended) at the `AccountNotFound` error. -/
theorem C7_every_fetch_error_normalized_to_zero_witness :
    (fun _ : String => (.error .accountNotFound : Except GatewayError ℤ))
      (sampleGateway.getAssociatedTokenAddress (getUsdcMint .devnet) "addr")
        = .error .accountNotFound ∧
    getTokenBalance sampleGateway (fun _ => .error .accountNotFound) .devnet "addr"
      = .ok 0 :=
  ⟨rfl,
   C7_every_fetch_error_normalized_to_zero sampleGateway
     (fun _ => .error .accountNotFound) .devnet "addr" .accountNotFound rfl⟩

/-- C8: the token builder converts the decimal amount `a` to the integer
smallest-unit amount `⌊a * 10^6⌋` carried by the transfer instruction,
flooring rather than rounding; in particular 3/2 (= 1.5) converts to 1500000
and 1/10^7 (= 0.0000001) converts to 0 without error. -/
theorem C8_amount_conversion_floors :
    (∀ (gw : TokenGateway) (network : NetworkType) (w r : String) (a : ℚ),
      transferAmount (createAndSignTokenTransaction gw network w r a).1
        = some ⌊a * (10 : ℚ) ^ USDC_DECIMALS⌋) ∧
    transferAmount (createAndSignTokenTransaction sampleGateway .devnet "w" "r" (3 / 2)).1
      = some 1500000 ∧
    transferAmount
        (createAndSignTokenTransaction sampleGateway .devnet "w" "r" (1 / 10000000)).1
      = some 0 := by
  have hgen : ∀ (gw : TokenGateway) (network : NetworkType) (w r : String) (a : ℚ),
      transferAmount (createAndSignTokenTransaction gw network w r a).1
        = some ⌊a * (10 : ℚ) ^ USDC_DECIMALS⌋ := by
    intro gw network w r a
    unfold createAndSignTokenTransaction
    cases h : gw.getAccountInfo (gw.getAssociatedTokenAddress (getUsdcMint network) r) <;>
      simp [h, transferAmount]
  refine ⟨hgen, ?_, ?_⟩
  · rw [hgen]
    norm_num [USDC_DECIMALS]
  · rw [hgen]
    norm_num [USDC_DECIMALS]

/-- C9: restoring a wallet from the base‑58 encoded secret produced by
`createWallet` succeeds and yields an identity with the same public address
and the same raw secret-key bytes, for every key derivation and every
generated secret (bytes below 256). -/
theorem C9_identity_roundtrip (derivePub : List Nat → String) (entropy : List Nat)
    (h : ∀ b ∈ entropy, b < 256) :
    ∃ w : WalletInfo,
      loadWalletFromSecretKey derivePub (createWallet derivePub entropy).secretKey
        = some w ∧
      w.publicKey = (createWallet derivePub entropy).publicKey ∧
      w.keypair.secretKey = (createWallet derivePub entropy).keypair.secretKey := by
  refine ⟨⟨derivePub entropy, ⟨b58encode entropy⟩, ⟨entropy, derivePub entropy⟩⟩, ?_, rfl, rfl⟩
  unfold loadWalletFromSecretKey createWallet Keypair.generate Keypair.fromSecretKey
  simp [b58decode_b58encode entropy h]

/-- Witness for C9 at the concrete secret bytes `[0, 1, 255]` (one leading
zero byte to exercise the base‑58 zero-prefix path). -/
theorem C9_identity_roundtrip_witness :
    (∀ b ∈ ([0, 1, 255] : List Nat), b < 256) ∧
    (∃ w : WalletInfo,
      loadWalletFromSecretKey (fun _ => "pk")
          (createWallet (fun _ => "pk") [0, 1, 255]).secretKey = some w ∧
      w.publicKey = (createWallet (fun _ => "pk") [0, 1, 255]).publicKey ∧
      w.keypair.secretKey
        = (createWallet (fun _ => "pk") [0, 1, 255]).keypair.secretKey) :=
  ⟨by decide, C9_identity_roundtrip (fun _ => "pk") [0, 1, 255] (by decide)⟩

/-- C10: when every build attempt fails, the grind loop exhausts its budget
and returns a result whose `txData` is `undefined` (the `txData!` non-null
assertion is applied to a variable that was never assigned; here `none`) and
whose signature is `null`, despite the declared return type promising a
present `TransactionData`. -/
theorem C10_exhausted_txData_undefined (o : GrindOracle) (logic : String → Bool)
    (maxAttempts : Nat) (h : ∀ k, ∃ e, o.build k = .error e) :
    (createUntilLogicMatches o logic maxAttempts).txData = none ∧
    (createUntilLogicMatches o logic maxAttempts).signature = none := by
  unfold createUntilLogicMatches
  exact createUntilLogicMatchesAux_all_build_fail o logic h maxAttempts 0 0 0 0

/-- Witness for C10: every build fails with `NetworkUnavailable`, budget 2. -/
theorem C10_exhausted_txData_undefined_witness :
    (∀ k : Nat, ∃ e,
      (GrindOracle.mk (fun _ => .error .networkUnavailable) (fun _ => .ok "y")).build k
        = .error e) ∧
    ((createUntilLogicMatches
        ⟨fun _ => .error .networkUnavailable, fun _ => .ok "y"⟩
        (fun _ => true) 2).txData = none ∧
     (createUntilLogicMatches
        ⟨fun _ => .error .networkUnavailable, fun _ => .ok "y"⟩
        (fun _ => true) 2).signature = none) :=
  ⟨fun _ => ⟨.networkUnavailable, rfl⟩,
   C10_exhausted_txData_undefined
     ⟨fun _ => .error .networkUnavailable, fun _ => .ok "y"⟩
     (fun _ => true) 2 (fun _ => ⟨.networkUnavailable, rfl⟩)⟩

end RickRich
